import Mathlib

/-!
Verification of the "AI tutorial" runner scripts: a shallow embedding of
the config-file parser and poll loop (unnamed/part_000, unnamed/part_001),
the credential setup flow (src/setup-env.ts), the message listener
(src/listen-api-key.ts) and the raw-mode keypress handlers, together with
theorems about their observable behaviour.
-/

deriving instance DecidableEq for Except

namespace AiTutorial

/-- Whitespace class of JavaScript String.prototype.trim, restricted to
the code points that can occur in the inputs handled here: ASCII
whitespace plus NBSP and BOM. -/
def isJsWhitespace (c : Char) : Bool :=
  c = ' ' || c = '\t' || c = '\n' || c = '\r' || c = '\x0b' || c = '\x0c' ||
    c = ' ' || c = '﻿'

/-- JavaScript s.trim(): remove leading and trailing whitespace. -/
def jsTrim (s : String) : String :=
  String.mk (((s.toList.dropWhile isJsWhitespace).reverse.dropWhile isJsWhitespace).reverse)

/-- JavaScript s.startsWith(pre). -/
def jsStartsWith (s pre : String) : Bool :=
  pre.toList.isPrefixOf s.toList

/-- JavaScript s.substring(n) (the prefixes dropped here are ASCII, so
UTF-16 indexing and code-point indexing agree). -/
def jsDrop (s : String) (n : Nat) : String :=
  String.mk (s.toList.drop n)

/-- Accumulator loop for splitLines. -/
def splitLinesAux : List Char → List Char → List String
  | [], acc => [String.mk acc.reverse]
  | c :: cs, acc =>
    if c = '\n' then String.mk acc.reverse :: splitLinesAux cs []
    else splitLinesAux cs (c :: acc)

/-- JavaScript content.split with a one-character separator: every piece
between separators, empty pieces included. -/
def splitLines (content : String) : List String :=
  splitLinesAux content.toList []

/-- Loop body of readConfigFile (unnamed/part_000 lines 34-39 and
unnamed/part_001 lines 72-77): scan the lines for the first one whose
trimmed form starts with file= and return the rest of that trimmed line,
trimmed again. -/
def findFileLine : List String → Option String
  | [] => none
  | line :: rest =>
    if jsStartsWith (jsTrim line) "file=" then some (jsTrim (jsDrop (jsTrim line) 5))
    else findFileLine rest

/-- readConfigFile (unnamed/part_000 lines 29-45, unnamed/part_001 lines
67-84). The synchronous filesystem read is passed in as an Except value;
a thrown error is an Except.error carrying its message. Both the inner
missing-directive throw and an underlying read failure are caught by the
surrounding try and rewrapped with a "Failed to read config file" message,
the ConfigError of the specification. -/
def readConfigFile (readResult : Except String String) : Except String String :=
  match readResult with
  | Except.error msg => Except.error ("Failed to read config file: " ++ msg)
  | Except.ok content =>
    match findFileLine (splitLines content) with
    | some path => Except.ok path
    | none => Except.error "Failed to read config file: No file parameter found in config"

/-- Rejection message of the poll loop (MAX_WAIT_TIME = 60000 ms elapsed,
unnamed/part_001 line 56). -/
def timeoutMessage : String := "Timeout waiting for env/run.conf to be created"

/-- checkFile poll loop of waitForConfigFile (unnamed/part_001 lines
45-64, unnamed/part_000 lines 10-26) in idealized discrete time: the k-th
check runs at elapsed = k * CHECK_INTERVAL = k * 500 ms after the start,
and existsAt reports file existence at a given elapsed time. Existence is
checked before the timeout comparison, exactly as in the source. -/
def checkFile (existsAt : Nat → Bool) (elapsed : Nat) : Except String Nat :=
  if existsAt elapsed then Except.ok elapsed
  else if elapsed > 60000 then Except.error timeoutMessage
  else checkFile existsAt (elapsed + 500)
termination_by 60500 - elapsed
decreasing_by omega

/-- waitForConfigFile: run the poll loop from elapsed time 0; the ok value
is the elapsed time at which the file was observed. -/
def waitForConfigFile (existsAt : Nat → Bool) : Except String Nat :=
  checkFile existsAt 0

/-- A character the regular expression dot matches: anything but a line
terminator. -/
def notLineTerminator (c : Char) : Bool :=
  !(c = '\n' || c = '\r')

/-- Capture of OPENAI_API_KEY=(.+) at the start of cs: the 15-character
literal must be followed by at least one non-terminator character; the
capture extends greedily to the next line terminator. -/
def captureAfterKey (cs : List Char) : Option String :=
  match cs.drop 15 with
  | [] => none
  | a :: rest =>
    if notLineTerminator a then some (String.mk ((a :: rest).takeWhile notLineTerminator))
    else none

/-- First match of OPENAI_API_KEY=(.+) in a character list: the regular
expression engine tries each start position in order. -/
def findKeyCaptureAux : List Char → Option String
  | [] => none
  | c :: cs =>
    if ("OPENAI_API_KEY=".toList).isPrefixOf (c :: cs) then
      match captureAfterKey (c :: cs) with
      | some cap => some cap
      | none => findKeyCaptureAux cs
    else findKeyCaptureAux cs

/-- content.match(/OPENAI_API_KEY=(.+)/): the raw first capture group. -/
def findKeyCapture (content : String) : Option String :=
  findKeyCaptureAux content.toList

/-- The stored key as every caller uses it: the first capture, trimmed
(match[1].trim() in setup-env.ts, listen-api-key.ts, check-api-key.ts). -/
def extractKey (content : String) : Option String :=
  (findKeyCapture content).map jsTrim

/-- The credential file line written by every writer:
OPENAI_API_KEY=<value> followed by a newline. -/
def envLine (value : String) : String :=
  "OPENAI_API_KEY=" ++ value ++ "\n"

/-- The message envelope exchanged with the embedding host (spec section
3, BridgeMessage). -/
structure BridgeMessage where
  type : String
  key : Option String := none
  value : Option String := none
  requestKey : Bool := false
deriving DecidableEq

/-- SAVE_API_KEY message as built by the listener and the setup flow. -/
def saveApiKeyMsg (v : String) : BridgeMessage :=
  { type := "SAVE_API_KEY", key := some "openai_api_key", value := some v }

/-- REQUEST_API_KEY message (no payload). -/
def requestApiKeyMsg : BridgeMessage :=
  { type := "REQUEST_API_KEY" }

/-- SET_ENV_VAR message for OPENAI_API_KEY with the given value. -/
def setEnvVarMsg (v : String) : BridgeMessage :=
  { type := "SET_ENV_VAR", key := some "OPENAI_API_KEY", value := some v }

/-- The message handler installed by setupApiKeyListener
(src/listen-api-key.ts lines 48-242). State: env is the content of
env/.env (none when the file is absent); hasParent states whether a parent
window handle distinct from the current window is reachable. Result: the
env file content after the handler, and the list of messages it posted.
The PING branch (lines 60-140) answers with the stored key or a
REQUEST_API_KEY; the SET_ENV_VAR branch (lines 149-241) returns early on a
missing or whitespace-only value, otherwise overwrites env/.env with
OPENAI_API_KEY=<trimmed value> and, when a distinct parent is reachable,
posts a SAVE_API_KEY confirmation carrying the original value. -/
def handleMessage (hasParent : Bool) (env : Option String) (msg : BridgeMessage) :
    Option String × List BridgeMessage :=
  if msg.type = "PING" ∧ msg.requestKey = true then
    match env with
    | some content =>
      match findKeyCapture content with
      | some cap => (env, if hasParent then [saveApiKeyMsg (jsTrim cap)] else [])
      | none => (env, if hasParent then [requestApiKeyMsg] else [])
    | none => (env, if hasParent then [requestApiKeyMsg] else [])
  else if msg.type = "SET_ENV_VAR" ∧ msg.key = some "OPENAI_API_KEY" then
    if jsTrim (msg.value.getD "") = "" then (env, [])
    else
      (some (envLine (jsTrim (msg.value.getD ""))),
        if hasParent then [saveApiKeyMsg (msg.value.getD "")] else [])
  else (env, [])

/-- Outcome of one keypress delivered to the raw-mode data handler. -/
inductive KeyOutcome where
  | resolved
  | cancelled
  | pending
deriving DecidableEq

/-- handleKeypress of waitForEnter and askRunAgain (unnamed/part_001 lines
99-118 and 150-169): Escape, Ctrl-C, q and Q reject the pending wait with
"User cancelled"; carriage return and line feed resolve it; every other
key falls through, leaving the wait pending. -/
def handleKeypress (key : String) : KeyOutcome :=
  if key = "\x1b" ∨ key = "\x03" ∨ key = "q" ∨ key = "Q" then KeyOutcome.cancelled
  else if key = "\r" ∨ key = "\n" then KeyOutcome.resolved
  else KeyOutcome.pending

/-- Pre-check at the top of setup-env main (src/setup-env.ts lines 35-55):
when env/.env exists, the key regex matches and the stored key validates
remotely, main returns immediately. -/
def precheckValid (env0 : Option String) (valid : String → Bool) : Bool :=
  match env0 with
  | none => false
  | some content =>
    match extractKey content with
    | some k => valid k
    | none => false

/-- main of src/setup-env.ts (lines 34-265) as a function of its
environment interactions: env0 is the env/.env content at the initial
check, valid the remote-validation oracle (client.models.list succeeding
for a given key), input the line the user typed, env1 the env/.env content
at the post-validation re-check (another process may have written in
between). Result: the process exit code (0 for a normal return) paired
with the content this flow wrote to env/.env, none when it performed no
write. All validation failure branches (401, 429, network) exit with code
1 before any write. -/
def setupMain (env0 : Option String) (valid : String → Bool) (input : String)
    (env1 : Option String) : Nat × Option String :=
  if precheckValid env0 valid = true then (0, none)
  else if jsTrim input = "" then (1, none)
  else if valid (jsTrim input) = false then (1, none)
  else
    match env1 with
    | some content =>
      match extractKey content with
      | some k =>
        if k = jsTrim input then (0, none)
        else if valid k = true then (0, none)
        else (0, some (envLine (jsTrim input)))
      | none => (0, some (envLine (jsTrim input)))
    | none => (0, some (envLine (jsTrim input)))

/-- Outcome of a keypress wait once it terminates: the user either pressed
enter or one of the cancel keys. -/
inductive UserKey where
  | enter
  | cancel
deriving DecidableEq

/-- One round of the rich runner loop (unnamed/part_001 lines 196-219):
the outcome of the waitForEnter wait, whether the child process succeeded,
and the outcome of the askRunAgain wait. -/
structure Round where
  confirmKey : UserKey
  execOk : Bool
  againKey : UserKey
deriving DecidableEq

/-- A round in which the user confirms, the child succeeds and the user
asks to run again, so the loop continues. -/
def goodRound : Round :=
  { confirmKey := UserKey.enter, execOk := true, againKey := UserKey.enter }

/-- The while(true) loop of the rich runner main: cancel during
waitForEnter exits 0, a failing child exits 1 inside executeFile, cancel
during askRunAgain exits 0, enter loops. none means every supplied round
continued the loop, which is still running. -/
def runLoop : List Round → Option Nat
  | [] => none
  | r :: rest =>
    if r.confirmKey = UserKey.cancel then some 0
    else if r.execOk = false then some 1
    else if r.againKey = UserKey.cancel then some 0
    else runLoop rest

/-- main of the rich runner (unnamed/part_001 lines 178-226): install,
wait for the config file, parse it, then the confirm/execute/again loop;
any error reaching the outer catch exits 1. -/
def runnerMain (installOk : Bool) (existsAt : Nat → Bool)
    (readRaw : Except String String) (rounds : List Round) : Option Nat :=
  if installOk = false then some 1
  else
    match waitForConfigFile existsAt with
    | Except.error _ => some 1
    | Except.ok _ =>
      match readConfigFile readRaw with
      | Except.error _ => some 1
      | Except.ok _ => runLoop rounds

/-- main of the simple runner (unnamed/part_001 lines 353-376): one
confirm-and-run round, then the process ends with status 0; cancel exits 0
and a failing child exits 1. -/
def simpleRunnerMain (installOk : Bool) (existsAt : Nat → Bool)
    (readRaw : Except String String) (confirmKey : UserKey) (execOk : Bool) : Option Nat :=
  if installOk = false then some 1
  else
    match waitForConfigFile existsAt with
    | Except.error _ => some 1
    | Except.ok _ =>
      match readConfigFile readRaw with
      | Except.error _ => some 1
      | Except.ok _ =>
        if confirmKey = UserKey.cancel then some 0
        else if execOk = false then some 1
        else some 0

/-! Helper lemmas. -/

/-- The parser loop is List.find? followed by the extraction of the
directive value. -/
theorem findFileLine_eq_find (ls : List String) :
    findFileLine ls =
      (ls.find? (fun l => jsStartsWith (jsTrim l) "file=")).map
        (fun l => jsTrim (jsDrop (jsTrim l) 5)) := by
  induction ls with
  | nil => rfl
  | cons line rest ih =>
    by_cases h : jsStartsWith (jsTrim line) "file=" = true
    · simp [findFileLine, List.find?_cons, h]
    · simp only [Bool.not_eq_true] at h
      simp [findFileLine, List.find?_cons, h, ih]

/-- The parser loop finds nothing exactly when no line qualifies. -/
theorem findFileLine_eq_none_iff (ls : List String) :
    findFileLine ls = none ↔ ∀ l ∈ ls, jsStartsWith (jsTrim l) "file=" = false := by
  rw [findFileLine_eq_find]
  simp [List.find?_eq_none]

/-! Claim C1. -/

/-- C1: for every configuration-file text containing at least one line
whose trimmed form starts with file= followed by X, readConfigFile returns
X trimmed of surrounding whitespace, taking the first such line (the head
of List.find?), regardless of the position of that line among other lines
and whitespace. -/
theorem readConfigFile_returns_first_file_line (content line : String)
    (h : (splitLines content).find? (fun l => jsStartsWith (jsTrim l) "file=") = some line) :
    readConfigFile (Except.ok content) = Except.ok (jsTrim (jsDrop (jsTrim line) 5)) := by
  simp [readConfigFile, findFileLine_eq_find, h]

theorem readConfigFile_returns_first_file_line_witness :
    readConfigFile (Except.ok "# tutorial\n  file= examples/demo.ts \nfile=other") =
      Except.ok "examples/demo.ts" :=
  (readConfigFile_returns_first_file_line "# tutorial\n  file= examples/demo.ts \nfile=other"
    "  file= examples/demo.ts " (by decide)).trans (by decide)

/-! Claim C2. -/

/-- C2 counterexample: the configuration text consisting of the single
line file= contains no line matching file= with a non-empty value, yet
readConfigFile succeeds (returning the empty string) instead of failing,
refuting the clause that parsing fails unless some line matches file=
followed by a non-empty value. -/
theorem readConfigFile_accepts_empty_value :
    readConfigFile (Except.ok "file=") = Except.ok "" ∧
    jsTrim (jsDrop (jsTrim "file=") 5) = "" := by decide

/-- C2 (amended): readConfigFile fails exactly when no line of the text
has a trimmed form starting with file= (the value after file= may be
empty), the failure carrying the wrapped message "No file parameter found
in config"; an underlying read failure is wrapped and rethrown with the
"Failed to read config file" message. -/
theorem readConfigFile_failure_characterization (content msg : String) :
    (readConfigFile (Except.ok content) =
        Except.error "Failed to read config file: No file parameter found in config" ↔
      ∀ l ∈ splitLines content, jsStartsWith (jsTrim l) "file=" = false) ∧
    readConfigFile (Except.error msg) =
      Except.error ("Failed to read config file: " ++ msg) := by
  constructor
  · rw [← findFileLine_eq_none_iff]
    cases hf : findFileLine (splitLines content) <;> simp [readConfigFile, hf]
  · rfl

theorem readConfigFile_failure_characterization_witness :
    ((readConfigFile (Except.ok "alpha\nbeta") =
        Except.error "Failed to read config file: No file parameter found in config" ↔
      ∀ l ∈ splitLines "alpha\nbeta", jsStartsWith (jsTrim l) "file=" = false) ∧
    readConfigFile (Except.error "ENOENT") =
      Except.error ("Failed to read config file: " ++ "ENOENT")) :=
  readConfigFile_failure_characterization "alpha\nbeta" "ENOENT"

/-- When the file is absent at every elapsed time up to 60500 ms (the
final poll instant), the loop rejects from any reachable poll state. -/
theorem checkFile_not_exists_aux (existsAt : Nat → Bool)
    (h : ∀ s, s ≤ 60500 → existsAt s = false) :
    ∀ (n e : Nat), 60500 - e ≤ n → e ≤ 60500 →
      checkFile existsAt e = Except.error timeoutMessage := by
  intro n
  induction n with
  | zero =>
    intro e hn he
    obtain rfl : e = 60500 := by omega
    rw [checkFile]
    simp [h 60500 (by omega)]
  | succ n ih =>
    intro e hn he
    rw [checkFile]
    rw [h e he]
    by_cases hgt : e > 60000
    · simp [hgt]
    · simp only [Bool.false_eq_true, if_false, hgt]
      exact ih (e + 500) (by omega) (by omega)

/-- When the file first exists at elapsed time t ≤ 60500, the loop, from
any reachable poll state at or before t, resolves at the first poll
instant at or after t, which lies within one poll interval of t. -/
theorem checkFile_first_exists_aux (t : Nat) (ht : t ≤ 60500) :
    ∀ (n e : Nat), t - e ≤ n → 500 ∣ e → e ≤ t →
      ∃ r, checkFile (fun s => decide (t ≤ s)) e = Except.ok r ∧ t ≤ r ∧ r ≤ t + 500 := by
  intro n
  induction n with
  | zero =>
    intro e hn hd he
    have het : t ≤ e := by omega
    refine ⟨e, ?_, het, by omega⟩
    rw [checkFile]
    simp only [decide_eq_true_eq]
    rw [if_pos het]
  | succ n ih =>
    intro e hn hd he
    by_cases hte : t ≤ e
    · refine ⟨e, ?_, hte, by omega⟩
      rw [checkFile]
      simp only [decide_eq_true_eq]
      rw [if_pos hte]
    · push_neg at hte
      have he60 : e ≤ 60000 := by
        obtain ⟨m, rfl⟩ := hd
        omega
      rw [checkFile]
      simp only [decide_eq_true_eq]
      rw [if_neg (by omega), if_neg (by omega)]
      by_cases hnext : e + 500 ≤ t
      · exact ih (e + 500) (by omega) (dvd_add hd (dvd_refl 500)) hnext
      · refine ⟨e + 500, ?_, by omega, by omega⟩
        rw [checkFile]
        simp only [decide_eq_true_eq]
        rw [if_pos (by omega)]

/-! Claim C3. -/

/-- C3 counterexample: with the config file first existing at 60200 ms,
strictly after the 60000 ms timeout window, the wait still resolves
successfully (at the final poll, which checks existence before the timeout
comparison) instead of rejecting with the timeout error. -/
theorem waitForConfigFile_resolves_after_window :
    (∀ s, s ≤ 60000 → (fun s => decide (60200 ≤ s)) s = false) ∧
    (∃ r, waitForConfigFile (fun s => decide (60200 ≤ s)) = Except.ok r) := by
  constructor
  · intro s hs
    simp only [decide_eq_false_iff_not]
    omega
  · obtain ⟨r, hr, -, -⟩ :=
      checkFile_first_exists_aux 60200 (by omega) 60200 0 (by omega) (dvd_zero 500)
        (by omega)
    exact ⟨r, hr⟩

/-- C3 (amended): in the discrete-time model of the poll loop (one check
every 500 ms from the start), if the file is created at elapsed time
t ≤ 60500 ms — the instant of the final poll, one interval past the 60 s
timeout — the wait resolves no earlier than t and no later than t + 500 ms;
if the file does not exist at any elapsed time up to 60500 ms, the wait
rejects with the timeout error. -/
theorem waitForConfigFile_poll_characterization (t : Nat) (ht : t ≤ 60500) :
    (∃ r, waitForConfigFile (fun s => decide (t ≤ s)) = Except.ok r ∧
      t ≤ r ∧ r ≤ t + 500) ∧
    ∀ existsAt : Nat → Bool, (∀ s, s ≤ 60500 → existsAt s = false) →
      waitForConfigFile existsAt = Except.error timeoutMessage := by
  constructor
  · exact checkFile_first_exists_aux t ht t 0 (by omega) (dvd_zero 500) (by omega)
  · intro existsAt h
    exact checkFile_not_exists_aux existsAt h 60500 0 (by omega) (by omega)

theorem waitForConfigFile_poll_characterization_witness :
    (∃ r, waitForConfigFile (fun s => decide (2000 ≤ s)) = Except.ok r ∧
      2000 ≤ r ∧ r ≤ 2000 + 500) ∧
    ∀ existsAt : Nat → Bool, (∀ s, s ≤ 60500 → existsAt s = false) →
      waitForConfigFile existsAt = Except.error timeoutMessage :=
  waitForConfigFile_poll_characterization 2000 (by omega)

/-! Claim C4. -/

/-- C4 counterexample: when no parent window handle distinct from the
current window is reachable, a received SET_ENV_VAR message for
OPENAI_API_KEY with a non-empty value still overwrites env/.env, but no
SAVE_API_KEY echo is emitted at all, refuting the unconditional echo. -/
theorem setEnvVar_without_parent_no_echo :
    handleMessage false none (setEnvVarMsg " sk-test-123 ") =
      (some "OPENAI_API_KEY=sk-test-123\n", []) := by decide

/-- C4 (amended): for every received SET_ENV_VAR message with key
OPENAI_API_KEY and a non-empty value, the listener overwrites env/.env
with OPENAI_API_KEY=<trimmed value> and, when a distinct parent window
handle is reachable, emits a SAVE_API_KEY echo (carrying the original
value) toward the message source, the parent window. -/
theorem handleMessage_set_env_var (hasParent : Bool) (env : Option String) (v : String)
    (hv : jsTrim v ≠ "") :
    handleMessage hasParent env (setEnvVarMsg v) =
      (some (envLine (jsTrim v)), if hasParent then [saveApiKeyMsg v] else []) := by
  simp [handleMessage, setEnvVarMsg, hv]

theorem handleMessage_set_env_var_witness :
    handleMessage true none (setEnvVarMsg " sk-echo-1 ") =
      (some "OPENAI_API_KEY=sk-echo-1\n", [saveApiKeyMsg " sk-echo-1 "]) :=
  (handleMessage_set_env_var true none " sk-echo-1 " (by decide)).trans (by decide)

/-! Claim C5. -/

/-- C5: writing a credential (listener flow on SET_ENV_VAR, or the setup
flow whenever it writes) yields the env/.env content
OPENAI_API_KEY=<trimmed value> followed by a newline, byte for byte, so an
immediate read returns exactly that; and writing the same value twice
produces the same file content (overwrite, not append). -/
theorem credential_write_roundtrip (hasParent : Bool) (env : Option String) (v : String)
    (hv : jsTrim v ≠ "") :
    (handleMessage hasParent env (setEnvVarMsg v)).1 =
        some ("OPENAI_API_KEY=" ++ jsTrim v ++ "\n") ∧
    (handleMessage hasParent ((handleMessage hasParent env (setEnvVarMsg v)).1)
        (setEnvVarMsg v)).1 = (handleMessage hasParent env (setEnvVarMsg v)).1 ∧
    ∀ (env0 : Option String) (valid : String → Bool) (input : String)
      (env1 : Option String) (w : String),
      (setupMain env0 valid input env1).2 = some w →
      w = "OPENAI_API_KEY=" ++ jsTrim input ++ "\n" := by
  refine ⟨?_, ?_, ?_⟩
  · simp [handleMessage, setEnvVarMsg, hv, envLine]
  · simp [handleMessage, setEnvVarMsg, hv, envLine]
  · intro env0 valid input env1 w hw
    by_cases h1 : precheckValid env0 valid = true
    · simp [setupMain, h1] at hw
    · by_cases h2 : jsTrim input = ""
      · simp [setupMain, h1, h2] at hw
      · by_cases h3 : valid (jsTrim input) = false
        · simp [setupMain, h1, h2, h3] at hw
        · cases env1 with
          | none =>
            simp [setupMain, h1, h2, h3, envLine] at hw
            exact hw.symm
          | some content =>
            cases hk : extractKey content with
            | none =>
              simp [setupMain, h1, h2, h3, hk, envLine] at hw
              exact hw.symm
            | some k =>
              by_cases h4 : k = jsTrim input
              · simp [setupMain, h1, h2, h3, hk, h4] at hw
              · by_cases h5 : valid k = true
                · simp [setupMain, h1, h2, h3, hk, h4, h5] at hw
                · simp [setupMain, h1, h2, h3, hk, h4, h5, envLine] at hw
                  exact hw.symm

theorem credential_write_roundtrip_witness :
    (handleMessage true none (setEnvVarMsg " sk-5 ")).1 = some "OPENAI_API_KEY=sk-5\n" :=
  ((credential_write_roundtrip true none " sk-5 " (by decide)).1).trans (by decide)

/-! Claim C6. -/

/-- C6: when the pre-check did not return early and the submitted
credential is empty or whitespace-only, the setup flow exits with code 1
and performs no file write, leaving the prior env/.env content (or its
absence) unchanged. -/
theorem setupMain_rejects_blank_input (env0 : Option String) (valid : String → Bool)
    (input : String) (env1 : Option String)
    (hpre : precheckValid env0 valid = false) (hblank : jsTrim input = "") :
    setupMain env0 valid input env1 = (1, none) := by
  simp [setupMain, hpre, hblank]

theorem setupMain_rejects_blank_input_witness :
    setupMain (some "OPENAI_API_KEY=sk-old\n") (fun _ => false) "   " none = (1, none) :=
  setupMain_rejects_blank_input (some "OPENAI_API_KEY=sk-old\n") (fun _ => false) "   " none
    (by decide) (by decide)

/-! Claim C7. -/

/-- C7: during a single-key wait, carriage return or line feed resolves
the wait; Escape, Ctrl-C, q or Q rejects it with the User cancelled
condition; any other key leaves the wait pending, neither resolved nor
rejected. -/
theorem handleKeypress_classification (key : String) :
    (handleKeypress key = KeyOutcome.resolved ↔ (key = "\r" ∨ key = "\n")) ∧
    (handleKeypress key = KeyOutcome.cancelled ↔
      (key = "\x1b" ∨ key = "\x03" ∨ key = "q" ∨ key = "Q")) ∧
    (handleKeypress key = KeyOutcome.pending ↔
      ¬(key = "\r" ∨ key = "\n" ∨ key = "\x1b" ∨ key = "\x03" ∨ key = "q" ∨ key = "Q")) := by
  unfold handleKeypress
  split_ifs with hc he
  · rcases hc with h | h | h | h <;> subst h <;> decide
  · rcases he with h | h <;> subst h <;> decide
  · push_neg at hc he
    obtain ⟨h1, h2, h3, h4⟩ := hc
    obtain ⟨h5, h6⟩ := he
    simp [h1, h2, h3, h4, h5, h6]

theorem handleKeypress_classification_witness :
    handleKeypress "x" = KeyOutcome.pending :=
  (handleKeypress_classification "x").2.2.mpr (by decide)

/-! Claim C9. -/

/-- C9: in the setup flow, when the post-validation re-check of env/.env
finds a stored key equal to the newly entered trimmed key, or a different
stored key that passes remote validation, the flow returns with exit code
0 without writing, leaving the existing credential-file content unchanged. -/
theorem setupMain_recheck_skips_write (env0 : Option String) (valid : String → Bool)
    (input c k : String)
    (hpre : precheckValid env0 valid = false) (hne : jsTrim input ≠ "")
    (hval : valid (jsTrim input) = true) (hk : extractKey c = some k)
    (hcase : k = jsTrim input ∨ valid k = true) :
    setupMain env0 valid input (some c) = (0, none) := by
  rcases hcase with h | h
  · simp [setupMain, hpre, hne, hval, hk, h]
  · by_cases h4 : k = jsTrim input
    · simp [setupMain, hpre, hne, hval, hk, h4]
    · simp [setupMain, hpre, hne, hval, hk, h4, h]

theorem setupMain_recheck_skips_write_witness :
    setupMain none (fun s => s == "sk-new") " sk-new " (some "OPENAI_API_KEY=sk-new\n") =
      (0, none) :=
  setupMain_recheck_skips_write none (fun s => s == "sk-new") " sk-new "
    "OPENAI_API_KEY=sk-new\n" "sk-new" (by decide) (by decide) (by decide) (by decide)
    (Or.inl (by decide))

/-! Claim C10. -/

/-- C10: for every received SET_ENV_VAR message for OPENAI_API_KEY whose
value is absent, empty or whitespace-only, the listener returns early
without writing the credential file and without emitting any message; the
env/.env content (or its absence) is unchanged. -/
theorem handleMessage_blank_value_noop (hasParent : Bool) (env : Option String)
    (v : Option String) (rk : Bool)
    (hv : jsTrim (v.getD "") = "") :
    handleMessage hasParent env
      { type := "SET_ENV_VAR", key := some "OPENAI_API_KEY", value := v, requestKey := rk } =
      (env, []) := by
  simp [handleMessage, hv]

theorem handleMessage_blank_value_noop_witness :
    handleMessage true (some "OPENAI_API_KEY=sk-old\n")
      { type := "SET_ENV_VAR", key := some "OPENAI_API_KEY", value := some "   ",
        requestKey := false } =
      (some "OPENAI_API_KEY=sk-old\n", []) :=
  handleMessage_blank_value_noop true (some "OPENAI_API_KEY=sk-old\n") (some "   ") false
    (by decide)

/-- Rounds in which the user confirms, the child succeeds and the user
asks to run again keep the loop running. -/
theorem runLoop_append_good (goods rest : List Round)
    (h : ∀ x ∈ goods, x = goodRound) :
    runLoop (goods ++ rest) = runLoop rest := by
  induction goods with
  | nil => rfl
  | cons r rs ih =>
    have hr : r = goodRound := h r (by simp)
    subst hr
    simp only [List.cons_append]
    rw [runLoop]
    simp only [goodRound]
    simp
    exact ih fun x hx => h x (List.mem_cons_of_mem _ hx)

/-- A file that exists from the start is observed by the very first poll. -/
theorem waitForConfigFile_always : waitForConfigFile (fun _ => true) = Except.ok 0 := by
  rw [waitForConfigFile, checkFile]
  simp

/-! Claim C8. -/

/-- C8: the runner exits with status 0 on graceful completion (the simple
runner finishing its single round, or the setup flow finishing) and on
user cancellation during either keypress wait, and with status 1 on
config-wait timeout, missing or unreadable config, credential validation
failure, or child-process failure. -/
theorem exit_code_policy :
    (∀ (existsAt : Nat → Bool) (readRaw : Except String String) (rounds : List Round),
        (∀ s, s ≤ 60500 → existsAt s = false) →
        runnerMain true existsAt readRaw rounds = some 1) ∧
    (∀ (existsAt : Nat → Bool) (readRaw : Except String String) (rounds : List Round)
        (r : Nat) (msg : String),
        waitForConfigFile existsAt = Except.ok r →
        readConfigFile readRaw = Except.error msg →
        runnerMain true existsAt readRaw rounds = some 1) ∧
    (∀ (existsAt : Nat → Bool) (readRaw : Except String String) (r : Nat) (p : String)
        (goods rest : List Round) (b : Bool) (k2 : UserKey),
        waitForConfigFile existsAt = Except.ok r →
        readConfigFile readRaw = Except.ok p →
        (∀ x ∈ goods, x = goodRound) →
        runnerMain true existsAt readRaw
          (goods ++ { confirmKey := UserKey.cancel, execOk := b, againKey := k2 } :: rest) =
          some 0) ∧
    (∀ (existsAt : Nat → Bool) (readRaw : Except String String) (r : Nat) (p : String)
        (goods rest : List Round),
        waitForConfigFile existsAt = Except.ok r →
        readConfigFile readRaw = Except.ok p →
        (∀ x ∈ goods, x = goodRound) →
        runnerMain true existsAt readRaw
          (goods ++
            { confirmKey := UserKey.enter, execOk := true, againKey := UserKey.cancel } ::
              rest) = some 0) ∧
    (∀ (existsAt : Nat → Bool) (readRaw : Except String String) (r : Nat) (p : String)
        (goods rest : List Round) (k2 : UserKey),
        waitForConfigFile existsAt = Except.ok r →
        readConfigFile readRaw = Except.ok p →
        (∀ x ∈ goods, x = goodRound) →
        runnerMain true existsAt readRaw
          (goods ++ { confirmKey := UserKey.enter, execOk := false, againKey := k2 } :: rest) =
          some 1) ∧
    (∀ (env0 : Option String) (valid : String → Bool) (input : String) (env1 : Option String),
        precheckValid env0 valid = false → jsTrim input ≠ "" → valid (jsTrim input) = false →
        (setupMain env0 valid input env1).1 = 1) ∧
    (∀ (env0 : Option String) (valid : String → Bool) (input : String) (env1 : Option String),
        precheckValid env0 valid = false → jsTrim input ≠ "" → valid (jsTrim input) = true →
        (setupMain env0 valid input env1).1 = 0) ∧
    (∀ (existsAt : Nat → Bool) (readRaw : Except String String) (r : Nat) (p : String)
        (b : Bool) (k : UserKey),
        waitForConfigFile existsAt = Except.ok r →
        readConfigFile readRaw = Except.ok p →
        simpleRunnerMain true existsAt readRaw k b =
          (if k = UserKey.cancel then some 0 else if b = false then some 1 else some 0)) := by
  refine ⟨?_, ?_, ?_, ?_, ?_, ?_, ?_, ?_⟩
  · intro existsAt readRaw rounds h
    have hw : waitForConfigFile existsAt = Except.error timeoutMessage :=
      checkFile_not_exists_aux existsAt h 60500 0 (by omega) (by omega)
    simp [runnerMain, hw]
  · intro existsAt readRaw rounds r msg hw hr
    simp [runnerMain, hw, hr]
  · intro existsAt readRaw r p goods rest b k2 hw hr hg
    simp [runnerMain, hw, hr, runLoop_append_good goods _ hg, runLoop]
  · intro existsAt readRaw r p goods rest hw hr hg
    simp [runnerMain, hw, hr, runLoop_append_good goods _ hg, runLoop]
  · intro existsAt readRaw r p goods rest k2 hw hr hg
    simp [runnerMain, hw, hr, runLoop_append_good goods _ hg, runLoop]
  · intro env0 valid input env1 h1 h2 h3
    simp [setupMain, h1, h2, h3]
  · intro env0 valid input env1 h1 h2 h3
    cases env1 with
    | none => simp [setupMain, h1, h2, h3]
    | some c =>
      cases hk : extractKey c with
      | none => simp [setupMain, h1, h2, h3, hk]
      | some k =>
        by_cases h4 : k = jsTrim input
        · simp [setupMain, h1, h2, h3, hk, h4]
        · by_cases h5 : valid k = true
          · simp [setupMain, h1, h2, h3, hk, h4, h5]
          · simp [setupMain, h1, h2, h3, hk, h4, h5]
  · intro existsAt readRaw r p b k hw hr
    cases k with
    | enter => cases b <;> simp [simpleRunnerMain, hw, hr]
    | cancel => simp [simpleRunnerMain, hw, hr]

theorem exit_code_policy_witness :
    runnerMain true (fun _ => false) (Except.ok "file=a") [] = some 1 ∧
    runnerMain true (fun _ => true) (Except.error "ENOENT") [] = some 1 ∧
    runnerMain true (fun _ => true) (Except.ok "file=a")
      [{ confirmKey := UserKey.cancel, execOk := true, againKey := UserKey.enter }] = some 0 ∧
    runnerMain true (fun _ => true) (Except.ok "file=a")
      [goodRound,
        { confirmKey := UserKey.enter, execOk := true, againKey := UserKey.cancel }] =
      some 0 ∧
    runnerMain true (fun _ => true) (Except.ok "file=a")
      [goodRound,
        { confirmKey := UserKey.enter, execOk := false, againKey := UserKey.enter }] =
      some 1 ∧
    (setupMain none (fun _ => false) "sk-x" none).1 = 1 ∧
    (setupMain none (fun _ => true) "sk-x" none).1 = 0 ∧
    simpleRunnerMain true (fun _ => true) (Except.ok "file=a") UserKey.enter true = some 0 := by
  have hw : waitForConfigFile (fun _ => true) = Except.ok 0 := waitForConfigFile_always
  have hr : readConfigFile (Except.ok "file=a") = Except.ok "a" := by decide
  have hg : ∀ x ∈ [goodRound], x = goodRound := by
    intro x hx
    simpa using hx
  refine ⟨?_, ?_, ?_, ?_, ?_, ?_, ?_, ?_⟩
  · exact exit_code_policy.1 (fun _ => false) (Except.ok "file=a") [] (fun s _ => rfl)
  · exact exit_code_policy.2.1 (fun _ => true) (Except.error "ENOENT") [] 0
      "Failed to read config file: ENOENT" hw (by decide)
  · exact exit_code_policy.2.2.1 (fun _ => true) (Except.ok "file=a") 0 "a" [] [] true
      UserKey.enter hw hr (by intro x hx; simp at hx)
  · exact exit_code_policy.2.2.2.1 (fun _ => true) (Except.ok "file=a") 0 "a" [goodRound] []
      hw hr hg
  · exact exit_code_policy.2.2.2.2.1 (fun _ => true) (Except.ok "file=a") 0 "a" [goodRound]
      [] UserKey.enter hw hr hg
  · exact exit_code_policy.2.2.2.2.2.1 none (fun _ => false) "sk-x" none (by decide)
      (by decide) (by decide)
  · exact exit_code_policy.2.2.2.2.2.2.1 none (fun _ => true) "sk-x" none (by decide)
      (by decide) (by decide)
  · exact (exit_code_policy.2.2.2.2.2.2.2 (fun _ => true) (Except.ok "file=a") 0 "a" true
      UserKey.enter hw hr).trans (by decide)

end AiTutorial
